import Mathlib

/-!
Verification of the tubeqa time-window synchronization and caching engine.

Each definition below is a shallow embedding of the corresponding JavaScript
function from the extension source (SummarizerClient, PromptClient, UIOverlay,
YouTubeAIAssistant). External collaborators (the language model, the
summarizer, the transcript extractor) are modelled by passing their replies in
as arguments; DOM effects are modelled as fields of explicit state records.
Times are rationals, matching exact arithmetic on JavaScript numbers for the
inputs that occur here.
-/

/-! ## Summarizer single-slot cache (SummarizerClient, src/ai/promptClient.js) -/

/-- State of SummarizerClient: the initialized flag, the single cached summary
(none models the null field; the empty string is cached but falsy in the
JavaScript reuse check), and currentSummaryTimeRange. -/
structure SummarizerState where
  initialized : Bool
  currentSummary : Option String
  rangeStart : ℚ
  rangeEnd : ℚ
deriving Repr, DecidableEq

/-- Constructor state of SummarizerClient: no summary, time range start and end
both -1. The initialized flag is set by a successful initialize call. -/
def SummarizerState.mk0 (initialized : Bool) : SummarizerState :=
  ⟨initialized, none, -1, -1⟩

/-- Result of one getSummaryForTime call: the returned string, the state after
the call, and whether the underlying summarize collaborator was invoked. -/
structure SummaryCall where
  result : String
  state : SummarizerState
  summarizeInvoked : Bool
deriving Repr, DecidableEq

/-- JavaScript truthiness of the currentSummary field: non-null and non-empty. -/
def SummarizerState.summaryTruthy (st : SummarizerState) : Bool :=
  match st.currentSummary with
  | some s => s ≠ ""
  | none => false

/-- Whitespace characters recognised by the trim and split operations used in
the source (the ASCII portion of the JavaScript whitespace class). -/
def isSpaceChar (c : Char) : Bool :=
  c = ' ' || c = '\t' || c = '\n' || c = '\r' || c = '\x0b' || c = '\x0c'

/-- Trim on character lists: drop whitespace from both ends, as String.prototype.trim. -/
def jsTrimList (cs : List Char) : List Char :=
  ((cs.dropWhile isSpaceChar).reverse.dropWhile isSpaceChar).reverse

/-- Trim on strings, as String.prototype.trim. -/
def jsTrim (s : String) : String :=
  ⟨jsTrimList s.data⟩

/-- Embedding of SummarizerClient.getSummaryForTime. The reply of the external
summarize call is passed in as summarizeResult. The reuse check of the source
is kept verbatim: halfWindow is computed as (windowEnd - windowStart) / 2 and
compared against currentSummaryTimeRange.end. -/
def getSummaryForTime (st : SummarizerState) (transcriptText : String)
    (windowStart windowEnd : ℚ) (summarizeResult : String) : SummaryCall :=
  if st.initialized = false then ⟨"", st, false⟩
  else
    let halfWindow := (windowEnd - windowStart) / 2
    if st.summaryTruthy = true ∧ halfWindow ≤ st.rangeEnd then
      ⟨st.currentSummary.getD "", st, false⟩
    else if jsTrim transcriptText = "" then
      ⟨"", st, false⟩
    else
      ⟨summarizeResult, ⟨st.initialized, some summarizeResult, windowStart, windowEnd⟩, true⟩

/-- Midpoint of a time window, as used by the specification's cache-validity
rule (the code never computes this quantity). -/
def windowMidpoint (s e : ℚ) : ℚ := (s + e) / 2

/-- C1. Cache validity fails on the code: populate the cache for W1 = [0, 300]
with a non-empty summary, then request W2 = [400, 700]. The midpoint of W2 is
550, strictly greater than W1.end = 300, so the claim requires the generator
to be invoked; the code instead compares the half-width (700 - 400) / 2 = 150
against 300, finds it no larger, and reuses the stale W1 summary without
invoking the generator. -/
theorem cache_reuse_ignores_midpoint :
    windowMidpoint 400 700 > 300
      ∧ (getSummaryForTime
          (getSummaryForTime (SummarizerState.mk0 true) "first text" 0 300 "summary one").state
          "second text" 400 700 "summary two").summarizeInvoked = false
      ∧ (getSummaryForTime
          (getSummaryForTime (SummarizerState.mk0 true) "first text" 0 300 "summary one").state
          "second text" 400 700 "summary two").result = "summary one"
      ∧ (getSummaryForTime
          (getSummaryForTime (SummarizerState.mk0 true) "first text" 0 300 "summary one").state
          "second text" 400 700 "summary two").state.rangeEnd = 300 := by
  refine ⟨by norm_num [windowMidpoint], ?_, ?_, ?_⟩ <;>
    · norm_num [getSummaryForTime, SummarizerState.mk0, SummarizerState.summaryTruthy]
      decide

/-! ## Streaming answer accumulation (PromptClient.generateAnswer and
YouTubeAIAssistant.handleQuestionClick) -/

/-- View state touched by the streaming chunk callback of
YouTubeAIAssistant.handleQuestionClick: the local fullAnswer accumulator and
the text the chatbox makes visible through updateChatboxContent. -/
structure ChatAnswerView where
  fullAnswer : String
  visibleText : String
deriving Repr, DecidableEq

/-- Embedding of the chunk callback in YouTubeAIAssistant.handleQuestionClick:
fullAnswer += chunk, then updateChatboxContent(fullAnswer) sets the visible
text to the accumulator. -/
def handleAnswerChunk (view : ChatAnswerView) (chunk : String) : ChatAnswerView :=
  let fa := view.fullAnswer ++ chunk
  ⟨fa, fa⟩

/-- Embedding of the streaming loop of PromptClient.generateAnswer applied
with the handleQuestionClick callback: for each chunk the generator keeps the
latest chunk as its own fullAnswer (replacement) and forwards the chunk to the
callback. Returns the generator's internal fullAnswer and the final view. -/
def generateAnswerStream (chunks : List String) (view : ChatAnswerView) :
    String × ChatAnswerView :=
  chunks.foldl (fun acc chunk => (chunk, handleAnswerChunk acc.2 chunk)) ("", view)

/-- Initial view: empty accumulator, nothing visible yet. -/
def ChatAnswerView.empty : ChatAnswerView := ⟨"", ""⟩

/-- C2. Streaming accumulation in the answer view is concatenation, not
replacement: feeding the chunk sequence of the claim through the
handleQuestionClick callback makes the view show the concatenation of all
chunks received so far at every step, and after the third chunk the visible
text is the concatenation rather than the latest chunk, even though the
generator's own accumulator correctly holds only the latest chunk. -/
theorem streaming_ui_concatenates_chunks :
    (generateAnswerStream ["Hi"] ChatAnswerView.empty).2.visibleText = "Hi"
      ∧ (generateAnswerStream ["Hi", "Hi there"] ChatAnswerView.empty).2.visibleText
          = "HiHi there"
      ∧ (generateAnswerStream ["Hi", "Hi there", "Hi there!"] ChatAnswerView.empty).2.visibleText
          = "HiHi thereHi there!"
      ∧ (generateAnswerStream ["Hi", "Hi there", "Hi there!"] ChatAnswerView.empty).1
          = "Hi there!"
      ∧ "HiHi thereHi there!" ≠ "Hi there!" := by
  decide

/-! ## Trigger scheduler (YouTubeAIAssistant.handleVideoTimeUpdate) -/

/-- Scheduler state: lastTriggerTime, the last integer video second at which a
generation cycle fired. The constructor initialises it to 0. -/
structure TriggerState where
  lastTriggerTime : Nat
deriving Repr, DecidableEq

/-- Result of one position update: whether a generation cycle fired and the
state afterwards. -/
structure TriggerStep where
  fired : Bool
  state : TriggerState
deriving Repr, DecidableEq

/-- Embedding of YouTubeAIAssistant.handleVideoTimeUpdate. The guards mirror
the source: return early when not running, when the video element is paused,
or when the AI toggle is off; otherwise fire exactly when the floored current
time is positive, is a multiple of the interval, and differs from
lastTriggerTime, updating lastTriggerTime on fire. currentTime is the floored
playback time. -/
def handleVideoTimeUpdate (isRunning paused aiEnabled : Bool) (interval : Nat)
    (currentTime : Nat) (st : TriggerState) : TriggerStep :=
  if isRunning = false ∨ paused = true then ⟨false, st⟩
  else if aiEnabled = false then ⟨false, st⟩
  else if currentTime > 0 ∧ currentTime % interval = 0 ∧ currentTime ≠ st.lastTriggerTime then
    ⟨true, ⟨currentTime⟩⟩
  else ⟨false, st⟩

/-- Value of the questionGenerationInterval field of YouTubeAIAssistant. -/
def questionGenerationInterval : Nat := 30

/-- Run a sequence of position updates through handleVideoTimeUpdate,
collecting for each update whether it fired. -/
def runTimeUpdates (isRunning paused aiEnabled : Bool) (interval : Nat)
    (times : List Nat) (st : TriggerState) : List Bool × TriggerState :=
  times.foldl
    (fun acc t =>
      let step := handleVideoTimeUpdate isRunning paused aiEnabled interval t acc.2
      (acc.1 ++ [step.fired], step.state))
    ([], st)

/-- C3. Trigger de-duplication: while running, playing and enabled with
interval 30, an update fires exactly when the floored time is positive, a
multiple of 30, and different from the last fired value; firing records the
new value and a non-firing update leaves the state unchanged. On the floored
time sequence 29, 30, 30, 31, 60, 60 starting from the constructor state,
exactly the second and the fifth updates fire. -/
theorem trigger_fire_characterization :
    (∀ t last : Nat,
      ((handleVideoTimeUpdate true false true questionGenerationInterval t ⟨last⟩).fired = true
          ↔ (0 < t ∧ t % 30 = 0 ∧ t ≠ last))
        ∧ (handleVideoTimeUpdate true false true questionGenerationInterval t ⟨last⟩).state
            = if 0 < t ∧ t % 30 = 0 ∧ t ≠ last then ⟨t⟩ else ⟨last⟩)
      ∧ (runTimeUpdates true false true questionGenerationInterval
          [29, 30, 30, 31, 60, 60] ⟨0⟩).1 = [false, true, false, false, true, false] := by
  constructor
  · intro t last
    by_cases h : 0 < t ∧ t % 30 = 0 ∧ t ≠ last <;>
      simp [handleVideoTimeUpdate, questionGenerationInterval, h]
  · decide

/-! ## UI update gate and question history (UIOverlay) -/

/-- One generated question with the time window it was generated for, as
stored by YouTubeAIAssistant.updateQuestions. -/
structure QuestionItem where
  text : String
  startTime : ℚ
  endTime : ℚ
deriving Repr, DecidableEq

/-- The pending-update slot of UIOverlay: the raw arguments of a deferred
updateQuestions call. The questions argument is optional because the source
also guards against an absent argument. -/
structure PendingQuestions where
  questions : Option (List QuestionItem)
  timestamp : ℚ
deriving Repr, DecidableEq

/-- One entry of the question history: the stored questions and the video
timestamp at which they were generated. -/
structure QuestionGroup where
  questions : List QuestionItem
  timestamp : ℚ
deriving Repr, DecidableEq

/-- The slice of UIOverlay state that the update gate and the history
navigation read and write: the isHovering flag, the single pendingQuestions
slot, the questionHistory array, and currentQuestionGroupIndex. -/
structure OverlayState where
  isHovering : Bool
  pendingQuestions : Option PendingQuestions
  questionHistory : List QuestionGroup
  currentQuestionGroupIndex : Int
deriving Repr, DecidableEq

/-- Constructor state of UIOverlay: not hovering, no pending update, empty
history, index -1. -/
def OverlayState.initial : OverlayState := ⟨false, none, [], -1⟩

/-- Embedding of UIOverlay.updateQuestions. While the user is hovering the
incoming update is stored as the sole pending update, overwriting any previous
one. Otherwise a non-empty question list is pushed onto the history and the
index is reset to the new last position; an empty or absent list changes
nothing (rendering is a pure DOM effect and is not part of this state). -/
def updateQuestions (st : OverlayState) (questions : Option (List QuestionItem))
    (timestamp : ℚ) : OverlayState :=
  if st.isHovering = true then
    { st with pendingQuestions := some ⟨questions, timestamp⟩ }
  else
    match questions with
    | some qs =>
      if 0 < qs.length then
        { st with
            questionHistory := st.questionHistory ++ [⟨qs, timestamp⟩],
            currentQuestionGroupIndex := Int.ofNat st.questionHistory.length }
      else st
    | none => st

/-- Embedding of the mouseenter listener installed by
UIOverlay.setupHoverDetection. -/
def handleMouseEnter (st : OverlayState) : OverlayState :=
  { st with isHovering := true }

/-- Embedding of the mouseleave listener installed by
UIOverlay.setupHoverDetection: clear isHovering, then flush the pending update
through updateQuestions and empty the pending slot. -/
def handleMouseLeave (st : OverlayState) : OverlayState :=
  let st1 := { st with isHovering := false }
  match st1.pendingQuestions with
  | some p => { updateQuestions st1 p.questions p.timestamp with pendingQuestions := none }
  | none => st1

/-- Embedding of UIOverlay.navigateBackward (only the state change; rendering
is a DOM effect). -/
def navigateBackward (st : OverlayState) : OverlayState :=
  if 0 < st.currentQuestionGroupIndex then
    { st with currentQuestionGroupIndex := st.currentQuestionGroupIndex - 1 }
  else st

/-- Embedding of UIOverlay.navigateForward (only the state change). -/
def navigateForward (st : OverlayState) : OverlayState :=
  if st.currentQuestionGroupIndex < (st.questionHistory.length : Int) - 1 then
    { st with currentQuestionGroupIndex := st.currentQuestionGroupIndex + 1 }
  else st

/-- C4. Gate deferral with latest-wins: if two updates A then B arrive while
the user is hovering, only B occupies the pending slot and the history is
untouched; when hovering ends, exactly the group built from B is appended, the
pending slot is cleared, and the final state is the one that would have been
reached had A never been delivered. -/
theorem gate_deferral_latest_wins (st : OverlayState) (A B : List QuestionItem)
    (tsA tsB : ℚ) (hHover : st.isHovering = true) (hB : B ≠ []) :
    let stAB := updateQuestions (updateQuestions st (some A) tsA) (some B) tsB
    stAB.pendingQuestions = some ⟨some B, tsB⟩
      ∧ stAB.questionHistory = st.questionHistory
      ∧ (handleMouseLeave stAB).questionHistory = st.questionHistory ++ [⟨B, tsB⟩]
      ∧ (handleMouseLeave stAB).pendingQuestions = none
      ∧ handleMouseLeave stAB = handleMouseLeave (updateQuestions st (some B) tsB) := by
  have hlen : 0 < B.length := List.length_pos.mpr hB
  simp [updateQuestions, handleMouseLeave, hHover, hlen]

/-- Witness for gate_deferral_latest_wins at a concrete hovering state and two
concrete one-question groups. -/
theorem gate_deferral_latest_wins_witness :
    (handleMouseLeave
        (updateQuestions
          (updateQuestions ⟨true, none, [], -1⟩ (some [⟨"question a", 0, 30⟩]) 0)
          (some [⟨"question b", 30, 60⟩]) 30)).questionHistory
      = [⟨[⟨"question b", 30, 60⟩], 30⟩] := by
  have h := gate_deferral_latest_wins ⟨true, none, [], -1⟩
    [⟨"question a", 0, 30⟩] [⟨"question b", 30, 60⟩] 0 30 rfl (by decide)
  simpa using h.2.2.1

/-- C6. History navigation bounds and append reset: navigating backward with
the cursor at index 0 changes nothing, navigating forward with the cursor at
the last index changes nothing, and appending a non-empty group while not
hovering grows the history by one and always resets the cursor to the new
last index. -/
theorem history_navigation_bounds (st : OverlayState) (qs : List QuestionItem) (ts : ℚ) :
    (st.currentQuestionGroupIndex = 0 → navigateBackward st = st)
      ∧ (st.currentQuestionGroupIndex = (st.questionHistory.length : Int) - 1 →
          navigateForward st = st)
      ∧ (st.isHovering = false → qs ≠ [] →
          (updateQuestions st (some qs) ts).questionHistory.length
              = st.questionHistory.length + 1
            ∧ (updateQuestions st (some qs) ts).currentQuestionGroupIndex
              = ((updateQuestions st (some qs) ts).questionHistory.length : Int) - 1) := by
  refine ⟨?_, ?_, ?_⟩
  · intro h0
    simp [navigateBackward, h0]
  · intro hLast
    simp [navigateForward, hLast]
  · intro hHover hqs
    have hlen : 0 < qs.length := List.length_pos.mpr hqs
    simp [updateQuestions, hHover, hlen]

/-- Witness for history_navigation_bounds at a concrete state with one stored
group and cursor 0 (which is also the last index), appending a one-question
group. -/
theorem history_navigation_bounds_witness :
    navigateBackward ⟨false, none, [⟨[⟨"q1", 0, 30⟩], 0⟩], 0⟩
        = ⟨false, none, [⟨[⟨"q1", 0, 30⟩], 0⟩], 0⟩
      ∧ navigateForward ⟨false, none, [⟨[⟨"q1", 0, 30⟩], 0⟩], 0⟩
        = ⟨false, none, [⟨[⟨"q1", 0, 30⟩], 0⟩], 0⟩
      ∧ (updateQuestions ⟨false, none, [⟨[⟨"q1", 0, 30⟩], 0⟩], 0⟩
            (some [⟨"q2", 30, 60⟩]) 30).currentQuestionGroupIndex = 1 := by
  have h := history_navigation_bounds ⟨false, none, [⟨[⟨"q1", 0, 30⟩], 0⟩], 0⟩
    [⟨"q2", 30, 60⟩] 30
  refine ⟨h.1 rfl, h.2.1 (by decide), ?_⟩
  have h2 := (h.2.2 rfl (by decide)).2
  have h1 := (h.2.2 rfl (by decide)).1
  rw [h1] at h2
  simpa using h2

/-- C10. Delivering an empty or absent question list while not hovering leaves
the overlay state unchanged: nothing is appended to the history and the cursor
keeps its value. -/
theorem empty_group_update_noop (st : OverlayState) (ts : ℚ)
    (questions : Option (List QuestionItem)) (hHover : st.isHovering = false)
    (hEmpty : questions = none ∨ questions = some []) :
    updateQuestions st questions ts = st := by
  rcases hEmpty with h | h <;> subst h <;> simp [updateQuestions, hHover]

/-- Witness for empty_group_update_noop at a concrete non-hovering state with
one stored group, delivering an empty list. -/
theorem empty_group_update_noop_witness :
    updateQuestions ⟨false, none, [⟨[⟨"q1", 0, 30⟩], 0⟩], 0⟩ (some []) 45
      = ⟨false, none, [⟨[⟨"q1", 0, 30⟩], 0⟩], 0⟩ :=
  empty_group_update_noop ⟨false, none, [⟨[⟨"q1", 0, 30⟩], 0⟩], 0⟩ 45 (some [])
    rfl (Or.inr rfl)

/-! ## Conversation state and streaming session (UIOverlay chatbox) -/

/-- Role of a conversation turn. -/
inductive ChatRole where
  | user
  | assistant
deriving Repr, DecidableEq

/-- One turn of the conversationHistory array. -/
structure ChatTurn where
  role : ChatRole
  content : String
deriving Repr, DecidableEq

/-- The fixed context window stored in conversationContext when a conversation
is opened. -/
structure ConversationContext where
  startTime : ℚ
  endTime : ℚ
deriving Repr, DecidableEq

/-- Chatbox-related slice of UIOverlay state: visibility and streaming flags,
the conversation turns, the anchored context window, whether the chatbox DOM
nodes exist, and the text currently shown in the answer block (none while the
loading dots are displayed). -/
structure ChatboxState where
  isChatboxVisible : Bool
  isStreaming : Bool
  conversationHistory : List ChatTurn
  conversationContext : Option ConversationContext
  chatboxExists : Bool
  visibleAnswer : Option String
deriving Repr, DecidableEq

/-- Embedding of UIOverlay.showChatbox: any previous chatbox is destroyed and
a fresh one is built, so the result does not depend on the previous state. The
conversation starts with the single user turn, the context window is stored,
the loading dots are shown, and both visibility and streaming flags are set. -/
def showChatbox (question : String) (startTime endTime : ℚ) : ChatboxState :=
  { isChatboxVisible := true
    isStreaming := true
    conversationHistory := [⟨ChatRole.user, question⟩]
    conversationContext := some ⟨startTime, endTime⟩
    chatboxExists := true
    visibleAnswer := none }

/-- Embedding of UIOverlay.updateChatboxContent: when the chatbox exists and
is visible, remove the loading dots and set the answer text; otherwise do
nothing. -/
def updateChatboxContent (st : ChatboxState) (text : String) : ChatboxState :=
  if st.chatboxExists = false then st
  else if st.isChatboxVisible = false then st
  else { st with visibleAnswer := some text }

/-- Embedding of UIOverlay.finishStreaming: clear the streaming flag, and
append an assistant turn only when the fullAnswer argument is truthy (present
and non-empty). The source call sites pass no argument, which is modelled by
passing none. -/
def finishStreaming (st : ChatboxState) (fullAnswer : Option String) : ChatboxState :=
  let st1 := { st with isStreaming := false }
  match fullAnswer with
  | some s =>
    if s ≠ "" then
      { st1 with conversationHistory := st1.conversationHistory ++ [⟨ChatRole.assistant, s⟩] }
    else st1
  | none => st1

/-- A follow-up request issued through the onFollowUpQuestion callback:
the message together with the start and end of the context window passed to
the handler. -/
structure FollowUpRequest where
  message : String
  startTime : ℚ
  endTime : ℚ
deriving Repr, DecidableEq

set_option linter.unusedVariables false in
/-- Embedding of the handleSendMessage closure inside UIOverlay.showChatbox.
The playbackClock argument models the live playback position at the moment the
follow-up is sent; the source never reads it, the request window always comes
from the stored conversationContext. An empty trimmed message or an in-flight
stream makes the call a no-op. -/
def handleSendMessage (st : ChatboxState) (inputValue : String) (playbackClock : ℚ) :
    Option FollowUpRequest × ChatboxState :=
  let message := jsTrim inputValue
  if message = "" ∨ st.isStreaming = true then (none, st)
  else
    let st1 := { st with
      visibleAnswer := none
      conversationHistory := st.conversationHistory ++ [⟨ChatRole.user, message⟩] }
    match st.conversationContext with
    | some ctx => (some ⟨message, ctx.startTime, ctx.endTime⟩, st1)
    | none => (none, st1)

/-- One follow-up round: the answer the previous request finished with (none
models the argument-less finishStreaming call of the source), the text typed
into the follow-up input, and the playback clock at that moment. -/
structure FollowUpRound where
  finishedAnswer : Option String
  inputValue : String
  playbackClock : ℚ
deriving Repr, DecidableEq

/-- Run a sequence of follow-up rounds against a chatbox state: each round
finishes the current stream and then sends the next message, collecting every
request actually issued to the answer collaborator. -/
def runFollowUps (st : ChatboxState) : List FollowUpRound → List FollowUpRequest × ChatboxState
  | [] => ([], st)
  | r :: rs =>
    let st1 := finishStreaming st r.finishedAnswer
    let sent := handleSendMessage st1 r.inputValue r.playbackClock
    let rest := runFollowUps sent.2 rs
    (sent.1.toList ++ rest.1, rest.2)

/-- Helper: finishStreaming never changes the stored context window. -/
theorem finishStreaming_context (st : ChatboxState) (ans : Option String) :
    (finishStreaming st ans).conversationContext = st.conversationContext := by
  cases ans with
  | none => rfl
  | some s =>
    by_cases h : s ≠ "" <;> simp [finishStreaming, h]

/-- Helper: handleSendMessage never changes the stored context window, and any
request it issues carries exactly the stored window. -/
theorem handleSendMessage_context (st : ChatboxState) (v : String) (c : ℚ) :
    (handleSendMessage st v c).2.conversationContext = st.conversationContext
      ∧ ∀ req, (handleSendMessage st v c).1 = some req →
          st.conversationContext = some ⟨req.startTime, req.endTime⟩ := by
  unfold handleSendMessage
  by_cases h : jsTrim v = "" ∨ st.isStreaming = true
  · simp [h]
  · cases hctx : st.conversationContext with
    | none => simp [h, hctx]
    | some ctx =>
      refine ⟨by simp [h, hctx], ?_⟩
      intro req hreq
      simp only [h, if_false, hctx] at hreq
      simp only [Option.some.injEq] at hreq
      subst hreq
      simp [hctx]

/-- Helper: every request issued by a run of follow-up rounds from a state
anchored at the window of ctx carries that window, and the anchor survives. -/
theorem runFollowUps_anchored (rounds : List FollowUpRound) (st : ChatboxState)
    (ctx : ConversationContext) (hctx : st.conversationContext = some ctx) :
    (∀ req ∈ (runFollowUps st rounds).1,
        req.startTime = ctx.startTime ∧ req.endTime = ctx.endTime)
      ∧ (runFollowUps st rounds).2.conversationContext = some ctx := by
  induction rounds generalizing st with
  | nil => simpa [runFollowUps] using hctx
  | cons r rs ih =>
    have hctx1 : (finishStreaming st r.finishedAnswer).conversationContext = some ctx := by
      rw [finishStreaming_context]; exact hctx
    set st1 := finishStreaming st r.finishedAnswer with hst1
    have hsend := handleSendMessage_context st1 r.inputValue r.playbackClock
    have hctx2 : (handleSendMessage st1 r.inputValue r.playbackClock).2.conversationContext
        = some ctx := by rw [hsend.1]; exact hctx1
    have hrest := ih _ hctx2
    constructor
    · intro req hreq
      simp only [runFollowUps, ← hst1, List.mem_append] at hreq
      rcases hreq with hreq | hreq
      · rcases Option.mem_toList.mp hreq with hsome
        have := hsend.2 req hsome
        rw [hctx1] at this
        obtain ⟨hs, he⟩ := Option.some.injEq _ _ ▸ this
        cases this
        exact ⟨rfl, rfl⟩
      · exact hrest.1 req hreq
    · simpa only [runFollowUps, ← hst1] using hrest.2

/-- C5. Conversation context anchoring: opening a conversation with context
window from startTime to endTime and then running any sequence of follow-up
rounds, at arbitrary playback clock values, issues every follow-up request
with exactly the opened window, and the stored context still equals that
window afterwards; the live clock is never consulted. -/
theorem conversation_context_anchored (question : String) (startTime endTime : ℚ)
    (rounds : List FollowUpRound) :
    (∀ req ∈ (runFollowUps (showChatbox question startTime endTime) rounds).1,
        req.startTime = startTime ∧ req.endTime = endTime)
      ∧ (runFollowUps (showChatbox question startTime endTime) rounds).2.conversationContext
        = some ⟨startTime, endTime⟩ :=
  runFollowUps_anchored rounds (showChatbox question startTime endTime)
    ⟨startTime, endTime⟩ rfl

/-- Witness for conversation_context_anchored: a conversation opened with
window from 10 to 40 and one follow-up sent at playback clock 500 issues the
follow-up request with window from 10 to 40, not one derived from 500. -/
theorem conversation_context_anchored_witness :
    (runFollowUps (showChatbox "what is this?" 10 40)
        [⟨some "an answer", "tell me more", 500⟩]).1
      = [⟨"tell me more", 10, 40⟩]
      ∧ (∀ req ∈ (runFollowUps (showChatbox "what is this?" 10 40)
            [⟨some "an answer", "tell me more", 500⟩]).1,
          req.startTime = 10 ∧ req.endTime = 40) :=
  ⟨by decide,
   (conversation_context_anchored "what is this?" 10 40
      [⟨some "an answer", "tell me more", 500⟩]).1⟩

/-! ## Generation coordinator (YouTubeAIAssistant.updateQuestions) -/

/-- Value of the transcriptBufferAhead field of YouTubeAIAssistant. -/
def transcriptBufferAhead : ℚ := 30

/-- Value of the summaryBuffer field of YouTubeAIAssistant. -/
def summaryBuffer : ℚ := 150

/-- Outcome of one generation cycle: whether the cycle aborted on an empty
transcript, which collaborators were reached, whether a user-facing error was
shown, and the overlay and summarizer states afterwards. -/
structure CycleResult where
  aborted : Bool
  summaryRequested : Bool
  summarizeInvoked : Bool
  generatorCalled : Bool
  errorShown : Bool
  overlay : OverlayState
  summarizer : SummarizerState
deriving Repr, DecidableEq

/-- Embedding of YouTubeAIAssistant.updateQuestions. The transcript for the
window from currentTime to currentTime plus transcriptBufferAhead, the
transcript of the summary window, the summarize reply, and the generated
question strings are passed in as the replies of the external collaborators.
An empty or whitespace-only transcript aborts the cycle with no error shown
(the showError call in that branch is commented out in the source); otherwise
the summary is fetched through the cache when the summarizer is initialized,
the question generator is called, and the stamped question data is handed to
UIOverlay.updateQuestions. -/
def runGenerationCycle (currentTime : ℚ) (transcript : String)
    (summaryWindowText : String) (summarizeResult : String)
    (generatedQuestions : List String) (sum : SummarizerState) (ov : OverlayState) :
    CycleResult :=
  if jsTrim transcript = "" then
    ⟨true, false, false, false, false, ov, sum⟩
  else
    let summaryCall :=
      if sum.initialized = true then
        getSummaryForTime sum summaryWindowText
          (currentTime - summaryBuffer) (currentTime + summaryBuffer) summarizeResult
      else ⟨"", sum, false⟩
    let questionData := generatedQuestions.map
      (fun q => QuestionItem.mk q currentTime (currentTime + transcriptBufferAhead))
    ⟨false, sum.initialized, summaryCall.summarizeInvoked, true, false,
      updateQuestions ov (some questionData) currentTime, summaryCall.state⟩

/-- C7. Empty transcript aborts the cycle without error: when the fetched
transcript is empty or whitespace-only, the cycle aborts, the summarizer and
the question generator are not called, no question group is produced, the
history and cursor are unchanged, and no user-facing error is shown. -/
theorem empty_transcript_aborts_cycle (currentTime : ℚ) (transcript : String)
    (summaryWindowText summarizeResult : String) (generatedQuestions : List String)
    (sum : SummarizerState) (ov : OverlayState) (hEmpty : jsTrim transcript = "") :
    runGenerationCycle currentTime transcript summaryWindowText summarizeResult
        generatedQuestions sum ov
      = ⟨true, false, false, false, false, ov, sum⟩ := by
  simp [runGenerationCycle, hEmpty]

/-- Witness for empty_transcript_aborts_cycle on a whitespace-only transcript
at time 60 with a non-trivial overlay state. -/
theorem empty_transcript_aborts_cycle_witness :
    runGenerationCycle 60 "  " "window text" "a summary" ["q"]
        (SummarizerState.mk0 true) ⟨false, none, [⟨[⟨"q1", 0, 30⟩], 0⟩], 0⟩
      = ⟨true, false, false, false, false, ⟨false, none, [⟨[⟨"q1", 0, 30⟩], 0⟩], 0⟩,
          SummarizerState.mk0 true⟩ :=
  empty_transcript_aborts_cycle 60 "  " "window text" "a summary" ["q"]
    (SummarizerState.mk0 true) ⟨false, none, [⟨[⟨"q1", 0, 30⟩], 0⟩], 0⟩ (by decide)

/-! ## Failure path of an interactive ask (YouTubeAIAssistant.handleQuestionClick
catch branch with the UIOverlay chatbox) -/

/-- Failure text displayed by the catch branch of handleQuestionClick. -/
def answerErrorMessage : String := "Sorry, I encountered an error generating the answer."

/-- Embedding of the catch branch of YouTubeAIAssistant.handleQuestionClick
composed with the UIOverlay chatbox operations: the chatbox was opened by
showChatbox, the failure text is displayed through updateChatboxContent, and
finishStreaming is then called with no argument (modelled as none), exactly as
at both call sites in the source. -/
def handleQuestionClickFailure (question : String) (startTime endTime : ℚ) : ChatboxState :=
  let st1 := showChatbox question startTime endTime
  let st2 := updateChatboxContent st1 answerErrorMessage
  finishStreaming st2 none

/-- C8. A failed interactive ask ends streaming and displays the failure text,
but appends no assistant turn: because finishStreaming is invoked without its
fullAnswer argument, the conversation history still holds only the user turn
after the failure, contradicting the claim that the failure message is
appended as the assistant turn. -/
theorem failed_ask_missing_assistant_turn :
    (handleQuestionClickFailure "What is discussed?" 0 30).isStreaming = false
      ∧ (handleQuestionClickFailure "What is discussed?" 0 30).visibleAnswer
          = some answerErrorMessage
      ∧ (handleQuestionClickFailure "What is discussed?" 0 30).conversationHistory
          = [⟨ChatRole.user, "What is discussed?"⟩] := by
  refine ⟨rfl, rfl, rfl⟩

/-! ## Question parsing fallback (PromptClient.parseQuestions and
PromptClient.cleanQuestionString) -/

/-- Split a character list at newline characters, keeping empty segments,
with the semantics of the split call in PromptClient.parseQuestions. -/
def splitLinesChars : List Char → List (List Char)
  | [] => [[]]
  | c :: rest =>
    let r := splitLinesChars rest
    if c = '\n' then [] :: r
    else
      match r with
      | h :: t => (c :: h) :: t
      | [] => [[c]]

/-- Split a string into its newline-separated lines. -/
def splitLines (s : String) : List String :=
  (splitLinesChars s.data).map (fun cs => ⟨cs⟩)

/-- Single quote character, written by code point to keep the source plain. -/
def squote : Char := Char.ofNat 39

/-- Quote characters recognised by the cleaning regular expressions. -/
def isQuoteChar (c : Char) : Bool := c = '"' || c = squote

/-- Test of the numbered-list regular expression: the raw line starts with one
or more digits followed by a period. -/
def startsNumbered (cs : List Char) : Bool :=
  let digits := cs.takeWhile Char.isDigit
  !digits.isEmpty && ((cs.drop digits.length).head? == some '.')

/-- Removal of the numbered-list marker: when the line starts with digits and
a period, drop them together with the whitespace that follows; otherwise the
line is unchanged. -/
def stripNumbering (cs : List Char) : List Char :=
  let digits := cs.takeWhile Char.isDigit
  if digits.isEmpty then cs
  else
    match cs.drop digits.length with
    | '.' :: rest => rest.dropWhile isSpaceChar
    | _ => cs

/-- Removal of a single leading quote character. -/
def stripLeadingQuote (cs : List Char) : List Char :=
  match cs with
  | c :: rest => if isQuoteChar c then rest else cs
  | [] => cs

/-- Removal of a trailing quote character optionally followed by a comma, as
the trailing-quote regular expression of cleanQuestionString. -/
def stripTrailingQuote (cs : List Char) : List Char :=
  match cs.reverse with
  | ',' :: c :: rest => if isQuoteChar c then rest.reverse else cs
  | c :: rest => if isQuoteChar c then rest.reverse else cs
  | [] => cs

/-- Global replacement of a backslash followed by the target character with
the bare target character, scanning left to right. -/
def replaceEscaped (target : Char) : List Char → List Char
  | '\\' :: c :: rest =>
    if c = target then target :: replaceEscaped target rest
    else '\\' :: replaceEscaped target (c :: rest)
  | c :: rest => c :: replaceEscaped target rest
  | [] => []

/-- Embedding of PromptClient.cleanQuestionString: trim, remove one leading
quote, remove a trailing quote with an optional comma, unescape escaped double
and single quotes, and trim again. -/
def cleanQuestionString (s : String) : String :=
  ⟨jsTrimList (replaceEscaped squote (replaceEscaped '"'
      (stripTrailingQuote (stripLeadingQuote (jsTrimList s.data)))))⟩

/-- Keep test of the fallback extraction: the line contains a question mark or
starts with a numbered-list marker. -/
def lineKept (line : String) : Bool :=
  line.data.contains '?' || startsNumbered line.data

/-- Per-line transformation of the fallback extraction: remove the numbering
marker, trim, then clean quote artifacts. -/
def extractStep (line : String) : String :=
  cleanQuestionString ⟨jsTrimList (stripNumbering line.data)⟩

/-- Embedding of the fallback branch of PromptClient.parseQuestions: split the
response into lines, drop whitespace-only lines, keep lines with a question
mark or a numbered-list marker, transform each kept line, drop items that
became empty, and return at most the first 3. -/
def parseQuestionsFallback (response : String) : List String :=
  let lines := (splitLines response).filter (fun line => 0 < (jsTrim line).length)
  let questions :=
    ((lines.filter lineKept).map extractStep).filter (fun q => 0 < q.length)
  questions.take 3

/-- Embedding of PromptClient.parseQuestions. The structured (JSON) parse of
the response is external input here: some qs models a response whose JSON
parse produced a questions array, none models a response that fails
structured parsing and is recovered through the fallback extraction. -/
def parseQuestions (structuredResult : Option (List String)) (response : String) :
    List String :=
  match structuredResult with
  | some qs => qs.map cleanQuestionString
  | none => parseQuestionsFallback response

/-- Fallback extraction as worded by the claim: scan the response's non-empty
lines, keep exactly those containing a question mark or starting with a
numbered-list marker, strip numbering markers and leading/trailing quote
artifacts (with trims), discard items that become empty, and return at most
the first 3. The wording mentions no unescaping of backslash-escaped quotes,
so none is performed here. -/
def claimFallback (response : String) : List String :=
  let lines := (splitLines response).filter (fun line => line ≠ "")
  let cleaned := (lines.filter lineKept).map (fun line =>
    (⟨jsTrimList (stripTrailingQuote (stripLeadingQuote
        (jsTrimList (jsTrimList (stripNumbering line.data)))))⟩ : String))
  (cleaned.filter (fun q => q ≠ "")).take 3

/-- Fallback extraction as the claim amended by the counterexample: identical
to claimFallback except that each kept line additionally has its
backslash-escaped double and single quotes unescaped, which makes the per-line
transformation exactly the one of the source. -/
def amendedFallback (response : String) : List String :=
  let lines := (splitLines response).filter (fun line => line ≠ "")
  let questions := ((lines.filter lineKept).map extractStep).filter (fun q => q ≠ "")
  questions.take 3

/-- Helper: a digit is not a whitespace character. -/
theorem isSpaceChar_false_of_isDigit {c : Char} (h : c.isDigit = true) :
    isSpaceChar c = false := by
  by_contra hsp
  rw [Bool.not_eq_false] at hsp
  have hor : c = ' ' ∨ c = '\t' ∨ c = '\n' ∨ c = '\x0d' ∨ c = '\x0b' ∨ c = '\x0c' := by
    simpa [isSpaceChar, or_assoc] using hsp
  rcases hor with h1 | h1 | h1 | h1 | h1 | h1 <;> subst h1 <;> exact absurd h (by decide)

/-- Helper: a list holding a non-whitespace character does not trim to the
empty list. -/
theorem jsTrimList_ne_nil {cs : List Char} {c : Char} (hc : c ∈ cs)
    (hsp : isSpaceChar c = false) : jsTrimList cs ≠ [] := by
  intro h
  unfold jsTrimList at h
  rw [List.reverse_eq_nil_iff, List.dropWhile_eq_nil_iff] at h
  have h2 : ∀ x ∈ cs.dropWhile isSpaceChar, isSpaceChar x = true := by
    intro x hx
    exact h x (List.mem_reverse.mpr hx)
  have h3 : isSpaceChar c = true := by
    have hsplit := List.takeWhile_append_dropWhile isSpaceChar cs
    rw [← hsplit] at hc
    rcases List.mem_append.mp hc with h4 | h4
    · exact List.mem_takeWhile_imp h4
    · exact h2 c h4
  rw [h3] at hsp
  exact absurd hsp (by simp)

/-- Helper: a kept line holds a non-whitespace character (a question mark or
a leading digit). -/
theorem lineKept_nonspace {line : String} (h : lineKept line = true) :
    ∃ c ∈ line.data, isSpaceChar c = false := by
  unfold lineKept at h
  rw [Bool.or_eq_true] at h
  rcases h with h | h
  · have hm : '?' ∈ line.data := by
      unfold List.contains at h
      exact List.elem_iff.mp h
    exact ⟨'?', hm, by decide⟩
  · simp only [startsNumbered, Bool.and_eq_true] at h
    obtain ⟨hne, _⟩ := h
    cases hcs : line.data with
    | nil => rw [hcs] at hne; simp [List.takeWhile] at hne
    | cons c rest =>
      rw [hcs] at hne
      by_cases hd : c.isDigit = true
      · exact ⟨c, List.mem_cons_self c rest, isSpaceChar_false_of_isDigit hd⟩
      · rw [List.takeWhile_cons] at hne
        simp [hd] at hne

/-- Helper: a kept line does not trim to the empty string. -/
theorem lineKept_trim_pos {line : String} (h : lineKept line = true) :
    0 < (jsTrim line).length := by
  obtain ⟨c, hc, hsp⟩ := lineKept_nonspace h
  have hne := jsTrimList_ne_nil hc hsp
  show 0 < (jsTrimList line.data).length
  exact List.length_pos.mpr hne

/-- Helper: a kept line is not the empty string. -/
theorem lineKept_ne_empty {line : String} (h : lineKept line = true) : line ≠ "" := by
  obtain ⟨c, hc, _⟩ := lineKept_nonspace h
  intro heq
  rw [heq] at hc
  simp at hc

/-- Helper: filtering for positive length is filtering for non-emptiness. -/
theorem filter_pos_ne (qs : List String) :
    (qs.filter fun q => decide (0 < q.length)) = qs.filter fun q => decide (q ≠ "") := by
  apply List.filter_congr
  intro x hx
  by_cases h : x = ""
  · subst h; rfl
  · have hd : x.data ≠ [] := by
      intro hh
      exact h (String.ext_iff.mpr (by rw [hh]))
    have hlen : 0 < x.length := List.length_pos.mpr hd
    simp [h, hlen]

/-- Helper: before the keep filter, dropping whitespace-only lines and
dropping empty lines give the same kept lines. -/
theorem filter_blank_keep (lines : List String) :
    ((lines.filter fun l => decide (0 < (jsTrim l).length)).filter lineKept)
      = ((lines.filter fun l => decide (l ≠ "")).filter lineKept) := by
  rw [List.filter_filter, List.filter_filter]
  apply List.filter_congr
  intro x hx
  cases hk : lineKept x
  · simp [hk]
  · simp [hk, lineKept_trim_pos hk, lineKept_ne_empty hk]

/-- C9 counterexample. On a response that fails structured parsing and whose
single kept line holds backslash-escaped quotes but no leading or trailing
quote artifact and no numbering marker, the parser unescapes the quotes while
the algorithm worded by the claim leaves the line unchanged, so the claimed
algorithm does not describe the parser. -/
theorem fallback_unescape_counterexample :
    parseQuestions none "Is it \\\"fine\\\"?" = ["Is it \"fine\"?"]
      ∧ claimFallback "Is it \\\"fine\\\"?" = ["Is it \\\"fine\\\"?"]
      ∧ ¬ parseQuestions none "Is it \\\"fine\\\"?"
          = claimFallback "Is it \\\"fine\\\"?" := by
  refine ⟨?_, ?_, ?_⟩ <;> decide

/-- C9 as amended. For every response that fails structured parsing, the
parser's result is exactly the claimed scan-keep-clean-cap algorithm extended
with the unescaping of backslash-escaped quotes, and it never holds more than
3 items. -/
theorem fallback_text_extraction (r : String) :
    parseQuestions none r = amendedFallback r
      ∧ (parseQuestions none r).length ≤ 3 := by
  constructor
  · show parseQuestionsFallback r = amendedFallback r
    unfold parseQuestionsFallback amendedFallback
    simp only []
    rw [filter_pos_ne]
    have hfb := filter_blank_keep (splitLines r)
    rw [hfb]
  · show (parseQuestionsFallback r).length ≤ 3
    unfold parseQuestionsFallback
    apply List.length_take_le
